import Mathlib

/-!
Verification development for the Flappy Bird simulation engine in
`src/flappy-bird/src/app/page.tsx`.

The engine is embedded shallowly: JavaScript numbers become exact
rationals (ℚ), the mutable `GameState` record becomes an immutable
structure threaded through the step functions, and the two callbacks
(`onScore`, `onCrash`) become an invocation count and a flag in the
result of `advanceState`.  The `onCrash` callback in the page is
`endGame`; since `advanceState` never reads `running` or `lastTime`
after invoking `onCrash`, applying `endGame` after `advanceState`
returns (`advanceFrame`) is observationally identical to the in-place
mutation.  `Math.random()` is modelled by an explicit draw `r : ℚ`
passed to `advanceState` (at most one obstacle spawns per call, so one
draw per call suffices).
-/

namespace Flappy

/-- `CANVAS_WIDTH = 420` (page.tsx line 14). -/
def CANVAS_WIDTH : ℚ := 420

/-- `CANVAS_HEIGHT = 640` (line 15). -/
def CANVAS_HEIGHT : ℚ := 640

/-- `GROUND_HEIGHT = 90` (line 16). -/
def GROUND_HEIGHT : ℚ := 90

/-- `BIRD_X = CANVAS_WIDTH * 0.28` (line 17), exactly 117.6. -/
def BIRD_X : ℚ := CANVAS_WIDTH * (28 / 100)

/-- `BIRD_RADIUS = 16` (line 18). -/
def BIRD_RADIUS : ℚ := 16

/-- `GRAVITY = 1800` (line 19). -/
def GRAVITY : ℚ := 1800

/-- `FLAP_STRENGTH = -620` (line 20). -/
def FLAP_STRENGTH : ℚ := -620

/-- `MAX_DROP_SPEED = 820` (line 21). -/
def MAX_DROP_SPEED : ℚ := 820

/-- `PIPE_WIDTH = 78` (line 22). -/
def PIPE_WIDTH : ℚ := 78

/-- `PIPE_GAP = 155` (line 23). -/
def PIPE_GAP : ℚ := 155

/-- `PIPE_SPEED = 180` (line 24). -/
def PIPE_SPEED : ℚ := 180

/-- `PIPE_INTERVAL = 1.45` (line 25), exactly 29/20. -/
def PIPE_INTERVAL : ℚ := 29 / 20

/-- The `Pipe` record (lines 27-31): horizontal position, gap center,
and the already-scored flag. -/
structure Pipe where
  x : ℚ
  gapCenter : ℚ
  passed : Bool
deriving DecidableEq

/-- The `GameState` record (lines 33-41). -/
structure GameState where
  birdY : ℚ
  birdVelocity : ℚ
  pipes : List Pipe
  spawnTimer : ℚ
  lastTime : ℚ
  running : Bool
  wingTimer : ℚ
deriving DecidableEq

/-- `createInitialState` (lines 43-53). -/
def createInitialState : GameState :=
  { birdY := CANVAS_HEIGHT / 2
    birdVelocity := 0
    pipes := []
    spawnTimer := 0
    lastTime := 0
    running := false
    wingTimer := 0 }

/-- `randomGapCenter` (lines 55-59), with the `Math.random()` draw
`r ∈ [0,1)` made explicit. -/
def randomGapCenter (r : ℚ) : ℚ :=
  let min := PIPE_GAP / 2 + 40
  let max := CANVAS_HEIGHT - GROUND_HEIGHT - PIPE_GAP / 2 - 40
  min + r * (max - min)

/-- The velocity clamp of lines 74-77: gravity has already been added;
only the downward (positive) direction is clamped. -/
def clampVelocity (v : ℚ) : ℚ :=
  if v > MAX_DROP_SPEED then MAX_DROP_SPEED else v

/-- The obstacle pushed at lines 82-86. -/
def freshPipe (r : ℚ) : Pipe :=
  { x := CANVAS_WIDTH + PIPE_WIDTH, gapCenter := randomGapCenter r, passed := false }

/-- The spawn test of lines 80-87: if the accumulated timer has reached
the interval, subtract the interval (keeping the overshoot) and append a
fresh obstacle. -/
def spawnStep (t : ℚ) (ps : List Pipe) (r : ℚ) : ℚ × List Pipe :=
  if t ≥ PIPE_INTERVAL then (t - PIPE_INTERVAL, ps ++ [freshPipe r]) else (t, ps)

/-- One obstacle's move-and-score step (lines 90-95): shift left by
`PIPE_SPEED * dt`, then, if not yet scored and the trailing edge has
passed the avatar's leading edge, mark scored.  The second component
records whether `onScore` fired for this obstacle. -/
def stepPipe (dt : ℚ) (p : Pipe) : Pipe × Bool :=
  if p.passed = false ∧ p.x - PIPE_SPEED * dt + PIPE_WIDTH < BIRD_X - BIRD_RADIUS then
    ({ x := p.x - PIPE_SPEED * dt, gapCenter := p.gapCenter, passed := true }, true)
  else
    ({ x := p.x - PIPE_SPEED * dt, gapCenter := p.gapCenter, passed := p.passed }, false)

/-- The collision test of lines 97-105, on a pipe whose position has
already been advanced for this frame. -/
def hitsPipe (birdY : ℚ) (p : Pipe) : Bool :=
  (decide (BIRD_X + BIRD_RADIUS > p.x) && decide (BIRD_X - BIRD_RADIUS < p.x + PIPE_WIDTH))
    && (decide (birdY - BIRD_RADIUS < p.gapCenter - PIPE_GAP / 2)
        || decide (birdY + BIRD_RADIUS > p.gapCenter + PIPE_GAP / 2))

/-- Result of the obstacle loop: updated obstacle list, number of
`onScore` invocations, and whether `onCrash` fired inside the loop. -/
structure ScrollResult where
  pipes : List Pipe
  score : ℕ
  crashed : Bool
deriving DecidableEq

/-- The `for (const pipe of state.pipes)` loop of lines 89-111.  On a
collision the source returns immediately, so the remaining obstacles are
left untouched (neither moved nor scored). -/
def scrollPipes (birdY dt : ℚ) : List Pipe → ScrollResult
  | [] => { pipes := [], score := 0, crashed := false }
  | p :: ps =>
    let q := stepPipe dt p
    let inc : ℕ := if q.2 then 1 else 0
    if hitsPipe birdY q.1 then
      { pipes := q.1 :: ps, score := inc, crashed := true }
    else
      let rest := scrollPipes birdY dt ps
      { pipes := q.1 :: rest.pipes, score := inc + rest.score, crashed := rest.crashed }

/-- The off-screen filter predicate of line 113. -/
def keepPipe (p : Pipe) : Bool :=
  decide (p.x + PIPE_WIDTH > -PIPE_WIDTH)

/-- Result of one `advanceState` call: the updated state, the number of
`onScore` invocations, and whether `onCrash` was invoked. -/
structure AdvanceResult where
  state : GameState
  nScore : ℕ
  crashed : Bool
deriving DecidableEq

/-- `advanceState` (lines 61-131).  Stage order follows the source: the
not-running early return (only the wing timer accrues), timers, gravity
with downward clamp, position integration, the spawn test, the obstacle
loop (which may abort with a crash, skipping the filter and the boundary
checks), the off-screen filter, then the ceiling and ground checks with
their position/velocity clamps. -/
def advanceState (s : GameState) (dt r : ℚ) : AdvanceResult :=
  if s.running = false then
    { state := { s with wingTimer := s.wingTimer + dt }, nScore := 0, crashed := false }
  else
    let w := s.wingTimer + dt
    let v := clampVelocity (s.birdVelocity + GRAVITY * dt)
    let y := s.birdY + v * dt
    let sp := spawnStep (s.spawnTimer + dt) s.pipes r
    let res := scrollPipes y dt sp.2
    if res.crashed then
      { state := { s with birdY := y, birdVelocity := v, pipes := res.pipes,
                          spawnTimer := sp.1, wingTimer := w },
        nScore := res.score, crashed := true }
    else
      let kept := res.pipes.filter keepPipe
      if y - BIRD_RADIUS ≤ 0 then
        { state := { s with birdY := BIRD_RADIUS, birdVelocity := 0, pipes := kept,
                            spawnTimer := sp.1, wingTimer := w },
          nScore := res.score, crashed := true }
      else if y + BIRD_RADIUS ≥ CANVAS_HEIGHT - GROUND_HEIGHT then
        { state := { s with birdY := CANVAS_HEIGHT - GROUND_HEIGHT - BIRD_RADIUS,
                            birdVelocity := 0, pipes := kept,
                            spawnTimer := sp.1, wingTimer := w },
          nScore := res.score, crashed := true }
      else
        { state := { s with birdY := y, birdVelocity := v, pipes := kept,
                            spawnTimer := sp.1, wingTimer := w },
          nScore := res.score, crashed := false }

/-- `endGame` (lines 317-325), the `onCrash`/`onTerminal` callback: a
no-op when already not running, otherwise clears `running` and
`lastTime`. -/
def endGame (s : GameState) : GameState :=
  if s.running = false then s else { s with running := false, lastTime := 0 }

/-- One frame as the page performs it (line 352): `advanceState`
followed by the `endGame` effect of the `onCrash` callback when it
fired. -/
def advanceFrame (s : GameState) (dt r : ℚ) : GameState × ℕ × Bool :=
  let a := advanceState s dt r
  (if a.crashed then endGame a.state else a.state, a.nScore, a.crashed)

/-- The engine-level flap (lines 395-403): sets the velocity to the flap
impulse while running; a flap while not running is routed by the page to
a restart instead of touching the velocity, so at the engine level it is
a no-op. -/
def flap (s : GameState) : GameState :=
  if s.running then { s with birdVelocity := FLAP_STRENGTH } else s

/-- `startGame` (lines 364-393), restricted to the simulation state: a
fresh initial state with `running = true`, and the flap impulse applied
when the restart came from a flap input. -/
def startGame (withFlap : Bool) : GameState :=
  let fresh := { createInitialState with running := true }
  if withFlap then { fresh with birdVelocity := FLAP_STRENGTH } else fresh

/-- External stimuli the engine can receive between frames. -/
inductive Event where
  | advance (dt r : ℚ)
  | flap
  | reset (withFlap : Bool)
deriving DecidableEq

/-- Effect of one stimulus on the simulation state. -/
def stepEvent (s : GameState) (e : Event) : GameState :=
  match e with
  | .advance dt r => (advanceFrame s dt r).1
  | .flap => flap s
  | .reset w => startGame w

/-- Fold a sequence of stimuli over the state. -/
def runEvents (s : GameState) : List Event → GameState
  | [] => s
  | e :: es => runEvents (stepEvent s e) es

/-- An advance event carries a non-negative `dt`; other events always
qualify. -/
def eventDtNonneg : Event → Prop
  | .advance dt _ => 0 ≤ dt
  | .flap => True
  | .reset _ => True

/-- Whether a stimulus is a reset. -/
def isReset : Event → Bool
  | .reset _ => true
  | _ => false

/-- A concrete running state holding one already-scored obstacle well
past the left edge, used to probe the off-screen filter threshold. -/
def stalePipeState : GameState :=
  { birdY := 320
    birdVelocity := 0
    pipes := [{ x := -90, gapCenter := 320, passed := true }]
    spawnTimer := 0
    lastTime := 0
    running := true
    wingTimer := 0 }

/-- Number of obstacles whose scored flag transitioned false→true
between a before-list and an after-list, matched positionally. -/
def newlyScored : List Pipe → List Pipe → ℕ
  | p :: ps, q :: qs =>
    (if p.passed = false ∧ q.passed = true then 1 else 0) + newlyScored ps qs
  | _, _ => 0

end Flappy

namespace Flappy

/-! ### Helper lemmas -/

lemma endGame_running (t : GameState) : (endGame t).running = false := by
  unfold endGame
  split
  case isTrue h => exact h
  case isFalse h => rfl

lemma endGame_idem (t : GameState) : endGame (endGame t) = endGame t := by
  by_cases h : t.running = false
  · simp [endGame, h]
  · simp [endGame, h]

lemma stepEvent_not_running (s : GameState) (e : Event) (hrun : s.running = false)
    (he : isReset e = false) : (stepEvent s e).running = false := by
  cases e with
  | advance dt r => simp [stepEvent, advanceFrame, advanceState, hrun]
  | flap => simp [stepEvent, flap, hrun]
  | reset w => simp [isReset] at he

lemma runEvents_not_running (s : GameState) (es : List Event) (hrun : s.running = false)
    (hes : ∀ e ∈ es, isReset e = false) : (runEvents s es).running = false := by
  induction es generalizing s with
  | nil => exact hrun
  | cons e es ih =>
    simp only [runEvents]
    exact ih (stepEvent s e)
      (stepEvent_not_running s e hrun (hes e (List.mem_cons_self e es)))
      (fun x hx => hes x (List.mem_cons_of_mem e hx))

lemma clampVelocity_bound (v dt : ℚ) (hdt : 0 ≤ dt) (hv : |v| ≤ MAX_DROP_SPEED) :
    |clampVelocity (v + GRAVITY * dt)| ≤ MAX_DROP_SPEED := by
  rw [abs_le] at hv ⊢
  simp only [clampVelocity, MAX_DROP_SPEED, GRAVITY] at hv ⊢
  split
  · constructor <;> norm_num
  case isFalse h =>
    constructor
    · nlinarith
    · linarith

lemma advance_velocity_bound (s : GameState) (dt r : ℚ) (hdt : 0 ≤ dt)
    (hv : |s.birdVelocity| ≤ MAX_DROP_SPEED) :
    |(advanceState s dt r).state.birdVelocity| ≤ MAX_DROP_SPEED := by
  simp only [advanceState]
  split
  · simpa using hv
  · split
    · simpa using clampVelocity_bound s.birdVelocity dt hdt hv
    · split
      · simp [MAX_DROP_SPEED]
      · split
        · simp [MAX_DROP_SPEED]
        · simpa using clampVelocity_bound s.birdVelocity dt hdt hv

lemma endGame_birdVelocity (s : GameState) : (endGame s).birdVelocity = s.birdVelocity := by
  unfold endGame
  split <;> rfl

lemma stepEvent_velocity_bound (s : GameState) (e : Event) (he : eventDtNonneg e)
    (hv : |s.birdVelocity| ≤ MAX_DROP_SPEED) :
    |(stepEvent s e).birdVelocity| ≤ MAX_DROP_SPEED := by
  cases e with
  | advance dt r =>
    have h := advance_velocity_bound s dt r he hv
    simp only [stepEvent, advanceFrame]
    split
    · rw [endGame_birdVelocity]
      exact h
    · exact h
  | flap =>
    simp only [stepEvent, flap]
    split
    · simp [FLAP_STRENGTH, MAX_DROP_SPEED]
      norm_num
    · exact hv
  | reset w =>
    simp only [stepEvent, startGame, createInitialState]
    split
    · simp [FLAP_STRENGTH, MAX_DROP_SPEED]
      norm_num
    · simp [MAX_DROP_SPEED]

lemma stepPipe_scored (dt : ℚ) (p : Pipe) :
    (stepPipe dt p).2 = (!p.passed && (stepPipe dt p).1.passed) := by
  unfold stepPipe
  split
  case isTrue h => simp [h.1]
  case isFalse h => simp

lemma stepPipe_monotone (dt : ℚ) (p : Pipe) (h : p.passed = true) :
    (stepPipe dt p).1.passed = true := by
  unfold stepPipe
  split
  · rfl
  · exact h

lemma newlyScored_self (ps : List Pipe) : newlyScored ps ps = 0 := by
  induction ps with
  | nil => rfl
  | cons p ps ih => cases hp : p.passed <;> simp [newlyScored, ih, hp]

/-- The obstacle loop preserves the number of obstacles, only ever turns
the scored flag on (positionally, obstacle by obstacle), and its
`onScore` count equals the number of obstacles whose flag transitioned
in this call. -/
lemma scrollPipes_spec (y dt : ℚ) (ps : List Pipe) :
    (scrollPipes y dt ps).pipes.length = ps.length ∧
    List.Forall₂ (fun a b => a.passed = true → b.passed = true) ps
      (scrollPipes y dt ps).pipes ∧
    (scrollPipes y dt ps).score = newlyScored ps (scrollPipes y dt ps).pipes := by
  induction ps with
  | nil => simp [scrollPipes, newlyScored]
  | cons p ps ih =>
    simp only [scrollPipes]
    split
    case isTrue hhit =>
      refine ⟨by simp, ?_, ?_⟩
      · exact List.Forall₂.cons (fun h => stepPipe_monotone dt p h)
          ((List.forall₂_same).mpr (fun x _ => id))
      · simp only [newlyScored, newlyScored_self ps]
        rw [stepPipe_scored]
        cases hp : p.passed <;> cases hq : (stepPipe dt p).1.passed <;> simp [hp, hq]
    case isFalse hhit =>
      obtain ⟨ihl, ihf, ihs⟩ := ih
      refine ⟨by simp [ihl], List.Forall₂.cons (fun h => stepPipe_monotone dt p h) ihf, ?_⟩
      simp only [newlyScored]
      rw [stepPipe_scored, ihs]
      cases hp : p.passed <;> cases hq : (stepPipe dt p).1.passed <;> simp [hp, hq]

/-- In a running state, `advanceState` reports exactly the loop's score
count, and its final obstacle list is the loop's list, possibly filtered
by `keepPipe` (always filtered when no crash occurred). -/
lemma advanceState_running_parts (s : GameState) (dt r : ℚ) (hrun : s.running = true) :
    (advanceState s dt r).nScore
      = (scrollPipes (s.birdY + clampVelocity (s.birdVelocity + GRAVITY * dt) * dt) dt
          ((spawnStep (s.spawnTimer + dt) s.pipes r).2)).score ∧
    ((advanceState s dt r).state.pipes
        = (scrollPipes (s.birdY + clampVelocity (s.birdVelocity + GRAVITY * dt) * dt) dt
            ((spawnStep (s.spawnTimer + dt) s.pipes r).2)).pipes
      ∨ (advanceState s dt r).state.pipes
        = ((scrollPipes (s.birdY + clampVelocity (s.birdVelocity + GRAVITY * dt) * dt) dt
            ((spawnStep (s.spawnTimer + dt) s.pipes r).2)).pipes).filter keepPipe) ∧
    ((advanceState s dt r).crashed = false →
      (advanceState s dt r).state.pipes
        = ((scrollPipes (s.birdY + clampVelocity (s.birdVelocity + GRAVITY * dt) * dt) dt
            ((spawnStep (s.spawnTimer + dt) s.pipes r).2)).pipes).filter keepPipe) := by
  simp only [advanceState, hrun]
  split_ifs <;> simp_all

end Flappy

namespace Flappy

/-! ### Claim theorems -/

/-- C1 (counterexample): from the start-of-run state, after
`advance(1.45)` exactly one obstacle exists, but its horizontal
position is 237 — not `CANVAS_WIDTH + PIPE_WIDTH = 498` as claimed —
because the loop scrolls the freshly spawned obstacle in the same
frame. -/
theorem first_spawn_not_at_edge :
    (advanceState (startGame false) (29 / 20) (1 / 2)).state.pipes.map Pipe.x = [237] ∧
    ¬ (advanceState (startGame false) (29 / 20) (1 / 2)).state.pipes.map Pipe.x
        = [CANVAS_WIDTH + PIPE_WIDTH] := by
  norm_num [advanceState, startGame, createInitialState, clampVelocity, spawnStep,
    scrollPipes, stepPipe, hitsPipe, keepPipe, freshPipe, randomGapCenter,
    CANVAS_WIDTH, CANVAS_HEIGHT, GROUND_HEIGHT, BIRD_X, BIRD_RADIUS, GRAVITY,
    MAX_DROP_SPEED, PIPE_WIDTH, PIPE_GAP, PIPE_SPEED, PIPE_INTERVAL]

/-- C1 (amended): from the start-of-run state (avatar centered,
velocity 0, no obstacles, spawn timer 0, running), a single
`advance(1.45)` leaves exactly one obstacle, spawned at
`CANVAS_WIDTH + PIPE_WIDTH` and scrolled by `PIPE_SPEED · dt` within the
same frame, hence at 498 − 261 = 237, for every random draw `r`. -/
theorem first_spawn_scrolled_same_frame (r : ℚ) :
    (advanceState (startGame false) (29 / 20) r).state.pipes
      = [{ x := CANVAS_WIDTH + PIPE_WIDTH - PIPE_SPEED * (29 / 20),
           gapCenter := randomGapCenter r, passed := false }] ∧
    CANVAS_WIDTH + PIPE_WIDTH - PIPE_SPEED * (29 / 20) = 237 := by
  constructor
  · norm_num [advanceState, startGame, createInitialState, clampVelocity, spawnStep,
      scrollPipes, stepPipe, hitsPipe, keepPipe, freshPipe,
      CANVAS_WIDTH, CANVAS_HEIGHT, GROUND_HEIGHT, BIRD_X, BIRD_RADIUS, GRAVITY,
      MAX_DROP_SPEED, PIPE_WIDTH, PIPE_GAP, PIPE_SPEED, PIPE_INTERVAL]
  · norm_num [CANVAS_WIDTH, PIPE_WIDTH, PIPE_SPEED]

/-- C2 (counterexample): a crash-free `advanceState` call can leave an
obstacle whose trailing edge is past the left boundary
(`x + PIPE_WIDTH = -30 ≤ 0`): the source's filter only removes obstacles
once `x + PIPE_WIDTH ≤ -PIPE_WIDTH`. -/
theorem offscreen_pipe_retained :
    (advanceState stalePipeState (1 / 10) 0).crashed = false ∧
    (advanceState stalePipeState (1 / 10) 0).state.pipes.map Pipe.x = [-108] ∧
    (-108 : ℚ) + PIPE_WIDTH ≤ 0 := by
  norm_num [advanceState, stalePipeState, clampVelocity, spawnStep,
    scrollPipes, stepPipe, hitsPipe, keepPipe, freshPipe, randomGapCenter,
    CANVAS_WIDTH, CANVAS_HEIGHT, GROUND_HEIGHT, BIRD_X, BIRD_RADIUS, GRAVITY,
    MAX_DROP_SPEED, PIPE_WIDTH, PIPE_GAP, PIPE_SPEED, PIPE_INTERVAL]

/-- C2 (amended): after every running, collision-free `advanceState`
call, every obstacle whose trailing edge has scrolled at least one
obstacle-width past the left boundary (`x + PIPE_WIDTH ≤ -PIPE_WIDTH`)
has been removed, and the surviving obstacles are an order-preserving
sublist of the scrolled obstacle list. -/
theorem offscreen_pipes_removed (s : GameState) (dt r : ℚ) (hrun : s.running = true)
    (hnc : (advanceState s dt r).crashed = false) :
    (∀ p ∈ (advanceState s dt r).state.pipes, -PIPE_WIDTH < p.x + PIPE_WIDTH) ∧
    (advanceState s dt r).state.pipes.Sublist
      ((scrollPipes (s.birdY + clampVelocity (s.birdVelocity + GRAVITY * dt) * dt) dt
          ((spawnStep (s.spawnTimer + dt) s.pipes r).2)).pipes) := by
  obtain ⟨-, -, hf⟩ := advanceState_running_parts s dt r hrun
  rw [hf hnc]
  constructor
  · intro p hp
    have hk := (List.mem_filter.mp hp).2
    simp [keepPipe] at hk
    exact hk
  · exact List.filter_sublist _

/-- Witness for C2 (amended) at a concrete crash-free frame. -/
theorem offscreen_pipes_removed_witness :
    (startGame false).running = true ∧
    (advanceState (startGame false) 0 0).crashed = false ∧
    ((∀ p ∈ (advanceState (startGame false) 0 0).state.pipes,
        -PIPE_WIDTH < p.x + PIPE_WIDTH) ∧
     (advanceState (startGame false) 0 0).state.pipes.Sublist
       ((scrollPipes ((startGame false).birdY
            + clampVelocity ((startGame false).birdVelocity + GRAVITY * 0) * 0) 0
          ((spawnStep ((startGame false).spawnTimer + 0) (startGame false).pipes 0).2)).pipes)) := by
  have h1 : (startGame false).running = true := rfl
  have h2 : (advanceState (startGame false) 0 0).crashed = false := by
    norm_num [advanceState, startGame, createInitialState, clampVelocity, spawnStep,
      scrollPipes, stepPipe, hitsPipe, keepPipe, CANVAS_WIDTH, CANVAS_HEIGHT,
      GROUND_HEIGHT, BIRD_X, BIRD_RADIUS, GRAVITY, MAX_DROP_SPEED, PIPE_WIDTH,
      PIPE_GAP, PIPE_SPEED, PIPE_INTERVAL]
  exact ⟨h1, h2, offscreen_pipes_removed (startGame false) 0 0 h1 h2⟩

/-- C3 (code evaluated at the failing input): the code has no guard for
negative `dt`; `advance(-1)` from the start-of-run state integrates the
negative step, moves the avatar from 320 to the ground clamp 534, and
invokes `onCrash` — instead of leaving the state unchanged and invoking
neither callback as the spec's defensive policy requires. -/
theorem negative_dt_not_treated_as_zero :
    (advanceFrame (startGame false) (-1) 0).1.birdY = 534 ∧
    (startGame false).birdY = 320 ∧
    (advanceFrame (startGame false) (-1) 0).2.2 = true ∧
    (advanceFrame (startGame false) (-1) 0).1.running = false := by
  norm_num [advanceFrame, advanceState, endGame, startGame, createInitialState,
    clampVelocity, spawnStep, scrollPipes, stepPipe, hitsPipe, keepPipe, freshPipe,
    randomGapCenter, CANVAS_WIDTH, CANVAS_HEIGHT, GROUND_HEIGHT, BIRD_X, BIRD_RADIUS,
    GRAVITY, MAX_DROP_SPEED, PIPE_WIDTH, PIPE_GAP, PIPE_SPEED, PIPE_INTERVAL]

/-- C4: for every `dt ≥ 0`, advancing while not running leaves the
avatar's vertical position, its velocity, and the obstacle list
unchanged, and invokes neither `onScore` nor `onCrash`. -/
theorem advance_idle_preserves (s : GameState) (dt r : ℚ) (_hdt : 0 ≤ dt)
    (hrun : s.running = false) :
    (advanceState s dt r).state.birdY = s.birdY ∧
    (advanceState s dt r).state.birdVelocity = s.birdVelocity ∧
    (advanceState s dt r).state.pipes = s.pipes ∧
    (advanceState s dt r).nScore = 0 ∧
    (advanceState s dt r).crashed = false := by
  simp [advanceState, hrun]

/-- Witness for C4 at the initial (not running) state with `dt = 1`. -/
theorem advance_idle_preserves_witness :
    (0 : ℚ) ≤ 1 ∧ createInitialState.running = false ∧
    ((advanceState createInitialState 1 0).state.birdY = createInitialState.birdY ∧
     (advanceState createInitialState 1 0).state.birdVelocity
        = createInitialState.birdVelocity ∧
     (advanceState createInitialState 1 0).state.pipes = createInitialState.pipes ∧
     (advanceState createInitialState 1 0).nScore = 0 ∧
     (advanceState createInitialState 1 0).crashed = false) :=
  ⟨by norm_num, rfl, advance_idle_preserves createInitialState 1 0 (by norm_num) rfl⟩

/-- C5 (counterexample): an `advance` call on a terminal state is not a
no-op on the state — the wing-animation timer still accrues `dt`. -/
theorem idle_advance_changes_state :
    (advanceState (endGame (startGame false)) 1 0).state ≠ endGame (startGame false) := by
  norm_num [advanceState, endGame, startGame, createInitialState, CANVAS_HEIGHT,
    GameState.mk.injEq]

/-- C5 (amended): once `endGame` (= `onTerminal`) runs, `running` is
false and stays false across any further sequence of `advance` and
engine-level `flap` calls that contains no reset; `endGame` always
yields a non-running state and is idempotent (it sets `running` to false
exactly once, later invocations are no-ops); and a further `advance`
while terminal invokes neither callback and leaves the state unchanged
except that `dt` accrues to the cosmetic wing timer. -/
theorem terminal_is_absorbing (s t : GameState) (es : List Event) (dt r : ℚ)
    (hrun : s.running = false) (hes : ∀ e ∈ es, isReset e = false) :
    (runEvents s es).running = false ∧
    (endGame t).running = false ∧
    endGame (endGame t) = endGame t ∧
    (advanceState s dt r).state = { s with wingTimer := s.wingTimer + dt } ∧
    (advanceState s dt r).nScore = 0 ∧
    (advanceState s dt r).crashed = false ∧
    flap s = s := by
  refine ⟨runEvents_not_running s es hrun hes, endGame_running t, endGame_idem t,
    ?_, ?_, ?_, ?_⟩
  · simp [advanceState, hrun]
  · simp [advanceState, hrun]
  · simp [advanceState, hrun]
  · simp [flap, hrun]

/-- Witness for C5 (amended) on a concrete terminal state and a concrete
reset-free event sequence. -/
theorem terminal_is_absorbing_witness :
    (endGame (startGame false)).running = false ∧
    (∀ e ∈ [Event.flap, Event.advance 1 0], isReset e = false) ∧
    ((runEvents (endGame (startGame false)) [Event.flap, Event.advance 1 0]).running
        = false ∧
     (endGame createInitialState).running = false ∧
     endGame (endGame createInitialState) = endGame createInitialState ∧
     (advanceState (endGame (startGame false)) 2 0).state
        = { endGame (startGame false) with
              wingTimer := (endGame (startGame false)).wingTimer + 2 } ∧
     (advanceState (endGame (startGame false)) 2 0).nScore = 0 ∧
     (advanceState (endGame (startGame false)) 2 0).crashed = false ∧
     flap (endGame (startGame false)) = endGame (startGame false)) := by
  have h1 : (endGame (startGame false)).running = false := endGame_running (startGame false)
  have h2 : ∀ e ∈ [Event.flap, Event.advance 1 0], isReset e = false := by
    intro e he
    simp only [List.mem_cons, List.not_mem_nil, or_false] at he
    rcases he with h | h <;> subst h <;> rfl
  exact ⟨h1, h2, terminal_is_absorbing (endGame (startGame false)) createInitialState
    [Event.flap, Event.advance 1 0] 2 0 h1 h2⟩

/-- C6: over any sequence of `advance` (with non-negative `dt`), `flap`
and `reset` stimuli, the avatar's vertical velocity never exceeds
`MAX_DROP_SPEED = 820` in absolute value, provided it starts within that
bound. -/
theorem velocity_never_exceeds_cap (s : GameState) (es : List Event)
    (hes : ∀ e ∈ es, eventDtNonneg e) (hv : |s.birdVelocity| ≤ MAX_DROP_SPEED) :
    |(runEvents s es).birdVelocity| ≤ MAX_DROP_SPEED := by
  induction es generalizing s with
  | nil => exact hv
  | cons e es ih =>
    simp only [runEvents]
    exact ih (stepEvent s e)
      (fun x hx => hes x (List.mem_cons_of_mem e hx))
      (stepEvent_velocity_bound s e (hes e (List.mem_cons_self e es)) hv)

/-- Witness for C6 on a concrete run: advance, flap, advance. -/
theorem velocity_never_exceeds_cap_witness :
    (∀ e ∈ [Event.advance 1 0, Event.flap, Event.advance (1 / 2) (1 / 3)],
        eventDtNonneg e) ∧
    |(startGame false).birdVelocity| ≤ MAX_DROP_SPEED ∧
    |(runEvents (startGame false)
        [Event.advance 1 0, Event.flap, Event.advance (1 / 2) (1 / 3)]).birdVelocity|
      ≤ MAX_DROP_SPEED := by
  have h1 : ∀ e ∈ [Event.advance 1 0, Event.flap, Event.advance (1 / 2) (1 / 3)],
      eventDtNonneg e := by
    intro e he
    simp only [List.mem_cons, List.not_mem_nil, or_false] at he
    rcases he with h | h | h <;> subst h
    · show (0 : ℚ) ≤ 1
      norm_num
    · trivial
    · show (0 : ℚ) ≤ 1 / 2
      norm_num
  have h2 : |(startGame false).birdVelocity| ≤ MAX_DROP_SPEED := by
    norm_num [startGame, createInitialState, MAX_DROP_SPEED]
  exact ⟨h1, h2, velocity_never_exceeds_cap (startGame false)
    [Event.advance 1 0, Event.flap, Event.advance (1 / 2) (1 / 3)] h1 h2⟩

/-- C7: within a running `advanceState` call, the obstacle loop keeps
the obstacle count, only ever turns the scored flag on (positionally,
obstacle by obstacle, so a flag never reverts and can transition at most
once over any sequence of calls), and the number of `onScore`
invocations reported equals the number of obstacles whose flag
transitioned false→true in this call; every obstacle in the final state
comes from the loop's output (spawning adds an unscored obstacle,
filtering only removes). -/
theorem scoring_fires_once_per_transition (s : GameState) (dt r : ℚ)
    (hrun : s.running = true) :
    (advanceState s dt r).nScore
      = newlyScored ((spawnStep (s.spawnTimer + dt) s.pipes r).2)
          ((scrollPipes (s.birdY + clampVelocity (s.birdVelocity + GRAVITY * dt) * dt) dt
              ((spawnStep (s.spawnTimer + dt) s.pipes r).2)).pipes) ∧
    List.Forall₂ (fun a b => a.passed = true → b.passed = true)
      ((spawnStep (s.spawnTimer + dt) s.pipes r).2)
      ((scrollPipes (s.birdY + clampVelocity (s.birdVelocity + GRAVITY * dt) * dt) dt
          ((spawnStep (s.spawnTimer + dt) s.pipes r).2)).pipes) ∧
    ((scrollPipes (s.birdY + clampVelocity (s.birdVelocity + GRAVITY * dt) * dt) dt
        ((spawnStep (s.spawnTimer + dt) s.pipes r).2)).pipes).length
      = ((spawnStep (s.spawnTimer + dt) s.pipes r).2).length ∧
    (∀ q ∈ (advanceState s dt r).state.pipes,
        q ∈ (scrollPipes (s.birdY + clampVelocity (s.birdVelocity + GRAVITY * dt) * dt) dt
          ((spawnStep (s.spawnTimer + dt) s.pipes r).2)).pipes) := by
  obtain ⟨hn, hor, -⟩ := advanceState_running_parts s dt r hrun
  obtain ⟨hlen, hmono, hscore⟩ := scrollPipes_spec
    (s.birdY + clampVelocity (s.birdVelocity + GRAVITY * dt) * dt) dt
    ((spawnStep (s.spawnTimer + dt) s.pipes r).2)
  refine ⟨by rw [hn, hscore], hmono, hlen, ?_⟩
  intro q hq
  rcases hor with h | h
  · rw [h] at hq
    exact hq
  · rw [h] at hq
    exact List.mem_of_mem_filter hq

/-- Witness for C7 at a concrete running state. -/
theorem scoring_fires_once_per_transition_witness :
    (startGame false).running = true ∧
    ((advanceState (startGame false) 0 0).nScore
        = newlyScored ((spawnStep ((startGame false).spawnTimer + 0)
              (startGame false).pipes 0).2)
            ((scrollPipes ((startGame false).birdY
                  + clampVelocity ((startGame false).birdVelocity + GRAVITY * 0) * 0) 0
                ((spawnStep ((startGame false).spawnTimer + 0)
                  (startGame false).pipes 0).2)).pipes) ∧
     List.Forall₂ (fun a b => a.passed = true → b.passed = true)
       ((spawnStep ((startGame false).spawnTimer + 0) (startGame false).pipes 0).2)
       ((scrollPipes ((startGame false).birdY
            + clampVelocity ((startGame false).birdVelocity + GRAVITY * 0) * 0) 0
          ((spawnStep ((startGame false).spawnTimer + 0)
            (startGame false).pipes 0).2)).pipes) ∧
     ((scrollPipes ((startGame false).birdY
          + clampVelocity ((startGame false).birdVelocity + GRAVITY * 0) * 0) 0
        ((spawnStep ((startGame false).spawnTimer + 0)
          (startGame false).pipes 0).2)).pipes).length
       = ((spawnStep ((startGame false).spawnTimer + 0) (startGame false).pipes 0).2).length ∧
     (∀ q ∈ (advanceState (startGame false) 0 0).state.pipes,
         q ∈ (scrollPipes ((startGame false).birdY
              + clampVelocity ((startGame false).birdVelocity + GRAVITY * 0) * 0) 0
            ((spawnStep ((startGame false).spawnTimer + 0)
              (startGame false).pipes 0).2)).pipes)) :=
  ⟨rfl, scoring_fires_once_per_transition (startGame false) 0 0 rfl⟩

/-- C8: for every random draw `r ∈ [0,1)`, the spawned gap center keeps
the whole gap strictly inside the playfield: above 0 and below the top
of the ground band. -/
theorem gap_never_touches (r : ℚ) (h0 : 0 ≤ r) (h1 : r < 1) :
    0 < randomGapCenter r - PIPE_GAP / 2 ∧
    randomGapCenter r + PIPE_GAP / 2 < CANVAS_HEIGHT - GROUND_HEIGHT := by
  unfold randomGapCenter PIPE_GAP CANVAS_HEIGHT GROUND_HEIGHT
  constructor <;> nlinarith

/-- Witness for C8 at the draw `r = 1/2`. -/
theorem gap_never_touches_witness :
    (0 : ℚ) ≤ 1 / 2 ∧ (1 / 2 : ℚ) < 1 ∧
    (0 < randomGapCenter (1 / 2) - PIPE_GAP / 2 ∧
     randomGapCenter (1 / 2) + PIPE_GAP / 2 < CANVAS_HEIGHT - GROUND_HEIGHT) :=
  ⟨by norm_num, by norm_num, gap_never_touches (1 / 2) (by norm_num) (by norm_num)⟩

/-- C9: whenever the avatar's vertical position is strictly between
`gapCenter - PIPE_GAP/2 + BIRD_RADIUS` and
`gapCenter + PIPE_GAP/2 - BIRD_RADIUS`, the collision predicate reports
no collision — regardless of horizontal overlap. -/
theorem centered_pass_never_hit (p : Pipe) (y : ℚ)
    (h1 : p.gapCenter - PIPE_GAP / 2 + BIRD_RADIUS < y)
    (h2 : y < p.gapCenter + PIPE_GAP / 2 - BIRD_RADIUS) :
    hitsPipe y p = false := by
  have ha : ¬ (y - BIRD_RADIUS < p.gapCenter - PIPE_GAP / 2) := by linarith
  have hb : ¬ (y + BIRD_RADIUS > p.gapCenter + PIPE_GAP / 2) := by linarith
  simp [hitsPipe, ha, hb]

/-- Witness for C9: an obstacle the avatar horizontally overlaps, with
the avatar centered in the gap. -/
theorem centered_pass_never_hit_witness :
    ({ x := 100, gapCenter := 275, passed := false } : Pipe).gapCenter - PIPE_GAP / 2
        + BIRD_RADIUS < 275 ∧
    (275 : ℚ) < ({ x := 100, gapCenter := 275, passed := false } : Pipe).gapCenter
        + PIPE_GAP / 2 - BIRD_RADIUS ∧
    hitsPipe 275 { x := 100, gapCenter := 275, passed := false } = false := by
  have h1 : ({ x := 100, gapCenter := 275, passed := false } : Pipe).gapCenter
      - PIPE_GAP / 2 + BIRD_RADIUS < 275 := by norm_num [PIPE_GAP, BIRD_RADIUS]
  have h2 : (275 : ℚ) < ({ x := 100, gapCenter := 275, passed := false } : Pipe).gapCenter
      + PIPE_GAP / 2 - BIRD_RADIUS := by norm_num [PIPE_GAP, BIRD_RADIUS]
  exact ⟨h1, h2,
    centered_pass_never_hit { x := 100, gapCenter := 275, passed := false } 275 h1 h2⟩

/-- C10: an obstacle satisfying the scoring condition (trailing edge
strictly left of the avatar's leading edge) cannot satisfy the
horizontal-overlap condition, so the collision branch is unreachable for
it; in particular an obstacle for which `stepPipe` just fired `onScore`
never collides in the same frame. -/
theorem scored_excludes_collision (p : Pipe) (y dt : ℚ) :
    (p.x + PIPE_WIDTH < BIRD_X - BIRD_RADIUS → hitsPipe y p = false) ∧
    ((stepPipe dt p).2 = true → hitsPipe y (stepPipe dt p).1 = false) := by
  constructor
  · intro h
    have hn : ¬ (BIRD_X - BIRD_RADIUS < p.x + PIPE_WIDTH) := by linarith
    simp [hitsPipe, hn]
  · unfold stepPipe
    split
    case isTrue hc =>
      intro _
      have hn : ¬ (BIRD_X - BIRD_RADIUS < p.x - PIPE_SPEED * dt + PIPE_WIDTH) := by
        linarith [hc.2]
      simp [hitsPipe, hn]
    case isFalse hc =>
      intro h
      simp at h

/-- Witness for C10: an obstacle that scores this frame and collides
with nothing. -/
theorem scored_excludes_collision_witness :
    ({ x := 20, gapCenter := 275, passed := false } : Pipe).x + PIPE_WIDTH
        < BIRD_X - BIRD_RADIUS ∧
    (stepPipe 0 { x := 20, gapCenter := 275, passed := false }).2 = true ∧
    hitsPipe 320 { x := 20, gapCenter := 275, passed := false } = false ∧
    hitsPipe 320 (stepPipe 0 { x := 20, gapCenter := 275, passed := false }).1 = false := by
  have h1 : ({ x := 20, gapCenter := 275, passed := false } : Pipe).x + PIPE_WIDTH
      < BIRD_X - BIRD_RADIUS := by norm_num [PIPE_WIDTH, BIRD_X, BIRD_RADIUS, CANVAS_WIDTH]
  have h2 : (stepPipe 0 { x := 20, gapCenter := 275, passed := false }).2 = true := by
    norm_num [stepPipe, PIPE_SPEED, PIPE_WIDTH, BIRD_X, BIRD_RADIUS, CANVAS_WIDTH]
  exact ⟨h1, h2,
    (scored_excludes_collision { x := 20, gapCenter := 275, passed := false } 320 0).1 h1,
    (scored_excludes_collision { x := 20, gapCenter := 275, passed := false } 320 0).2 h2⟩

end Flappy
